import Mathlib

/-!
# Verification of the naex exploration planner (src/include/naex/planner.h)

A shallow embedding of the planner core of the naex repository.  C++ floats
(`Value = float`) are modelled by `ℚ`; a float that may be non-finite
(infinity / NaN, used by the source as "never seen" or "unreachable") is
modelled by `Option ℚ` with `none` standing for the non-finite case.
Mutable per-point attributes become fields of `Point`; the planner service
`Planner::plan` becomes a pure function from its inputs (request, map cloud,
planner state) and the results of the external Dijkstra run (boost library)
to `Except PlanError (List Pose)`.
-/

namespace Naex

/-- 3-D vector over ℚ (the source uses Eigen `Vec3` of floats). -/
def Vec3 : Type := ℚ × ℚ × ℚ

instance : DecidableEq Vec3 := by
  unfold Vec3
  infer_instance

instance : Inhabited Vec3 := ⟨((0 : ℚ), (0 : ℚ), (0 : ℚ))⟩

/-- Dot product of 3-vectors. -/
def dot (a b : Vec3) : ℚ :=
  a.1 * b.1 + a.2.1 * b.2.1 + a.2.2 * b.2.2

/-- Cross product of 3-vectors (Eigen `cross`). -/
def cross (a b : Vec3) : Vec3 :=
  (a.2.1 * b.2.2 - a.2.2 * b.2.1,
   a.2.2 * b.1 - a.1 * b.2.2,
   a.1 * b.2.1 - a.2.1 * b.1)

/-- Vector negation. -/
def vneg (a : Vec3) : Vec3 := (-a.1, -a.2.1, -a.2.2)

/-- Squared Euclidean norm.  The source compares `norm()` values; for
non-negative quantities those comparisons coincide with comparisons of the
squared norms, which stay inside ℚ. -/
def sqNorm (a : Vec3) : ℚ := dot a a

/-- Squared Euclidean distance between two points. -/
def sqDist (a b : Vec3) : ℚ :=
  sqNorm (a.1 - b.1, a.2.1 - b.2.1, a.2.2 - b.2.2)

/-- One map point with the attributes read by the planner
(`naex::Point`, fields `position_`, `normal_`, `flags_`,
`num_edge_neighbors_`, `dist_to_actor_`, `actor_last_visit_`,
`dist_to_other_actors_`, `other_actors_last_visit_`).
`Option ℚ` fields: `none` models a non-finite float. -/
structure Point where
  position : Vec3
  normal : Vec3
  flags : ℕ
  num_edge_neighbors : ℕ
  dist_to_actor : Option ℚ
  actor_last_visit : Option ℚ
  dist_to_other_actors : Option ℚ
  other_actors_last_visit : Option ℚ
  deriving DecidableEq

/-- Placeholder point used for out-of-range vector access (the C++ code
never reads out of range; `List.getD` needs a default). -/
def dummyPoint : Point :=
  { position := default
    normal := default
    flags := 0
    num_edge_neighbors := 0
    dist_to_actor := none
    actor_last_visit := none
    dist_to_other_actors := none
    other_actors_last_visit := none }

instance : Inhabited Point := ⟨dummyPoint⟩

/-- Modelled from the spec: the point flag bitset over {NORMAL_OK,
TRAVERSABLE, EDGE, EMPTY, OBSTACLE, DIRTY} lives in `naex/types.h`, which is
not under src/.  The planner only tests the TRAVERSABLE bit
(`flags_ & TRAVERSABLE`); the concrete bit position is irrelevant to every
claim, so we fix it as bit 1. -/
def TRAVERSABLE : ℕ := 2

/-- Test of the TRAVERSABLE flag on vertex `v` of the map cloud
(`map_.cloud_[v].flags_ & TRAVERSABLE` in `Planner::plan`). -/
def hasTraversable (cloud : List Point) (v : ℕ) : Bool :=
  (cloud.getD v dummyPoint).flags &&& TRAVERSABLE ≠ 0

/-- Position of vertex `v` of the map cloud. -/
def getPos (cloud : List Point) (v : ℕ) : Vec3 :=
  (cloud.getD v dummyPoint).position

/-- Planner configuration fields read by `Planner::plan`
(members of `naex::Planner`). -/
structure PlanConfig where
  neighborhood_radius : ℚ
  min_vp_distance : ℚ
  max_vp_distance : ℚ
  self_factor : ℚ
  k_neighbors : ℕ
  random_start : Bool

/-- `Planner::distance_reward` (planner.h lines 505-511):
```
Value r = std::isfinite(distance) ? distance : max_vp_distance_;
r = r >= min_vp_distance_ ? r : 0.f;
r /= max_vp_distance_;
```
`none` models a non-finite input distance. -/
def distance_reward (minVp maxVp : ℚ) (d : Option ℚ) : ℚ :=
  let r : ℚ := match d with
    | some v => v
    | none => maxVp
  let r2 : ℚ := if r ≥ minVp then r else 0
  r2 / maxVp

/-- The staging-area membership test of the reward loop
(planner.h lines 763-765).  Faithful to the source, including the literal
`position_[0] <= 30.` in the last conjunct (where the z-coordinate sits in
the other conjuncts). -/
def in_staging_area (p : Vec3) : Bool :=
  decide (p.1 ≥ -60) && decide (p.1 ≤ 0) &&
  decide (p.2.1 ≥ -30) && decide (p.2.1 ≤ 30) &&
  decide (p.2.2 ≥ -30) && decide (p.1 ≤ 30)

/-- The per-vertex reward computed by the exploration branch of
`Planner::plan` (planner.h lines 755-770):
```
reward_ = max(min(distance_reward(dist_to_actor_),
                  distance_reward(other_actors_last_visit_)),
              self_factor_ * distance_reward(dist_to_actor_));
reward_ *= (1 + num_edge_neighbors_);
if (in staging area) reward_ /= (1. + pow(dist_from_origin, 4));
```
Note `pow(norm p, 4) = (sqNorm p)^2`. -/
def reward (cfg : PlanConfig) (pt : Point) : ℚ :=
  let r :=
    max (min (distance_reward cfg.min_vp_distance cfg.max_vp_distance pt.dist_to_actor)
             (distance_reward cfg.min_vp_distance cfg.max_vp_distance pt.other_actors_last_visit))
        (cfg.self_factor * distance_reward cfg.min_vp_distance cfg.max_vp_distance pt.dist_to_actor)
  let r := r * (1 + (pt.num_edge_neighbors : ℚ))
  if in_staging_area pt.position then r / (1 + (sqNorm pt.position) ^ 2) else r

/-- The reward formula exactly as the specification states it, for
comparison with `reward`: the second argument of the inner `min` is the
distance reward of `dist_to_other_actors` (the teammate visitation
distance), not of the visit timestamp. -/
def reward_spec_formula (cfg : PlanConfig) (pt : Point) : ℚ :=
  let r :=
    max (min (distance_reward cfg.min_vp_distance cfg.max_vp_distance pt.dist_to_actor)
             (distance_reward cfg.min_vp_distance cfg.max_vp_distance pt.dist_to_other_actors))
        (cfg.self_factor * distance_reward cfg.min_vp_distance cfg.max_vp_distance pt.dist_to_actor)
  let r := r * (1 + (pt.num_edge_neighbors : ℚ))
  if in_staging_area pt.position then r / (1 + (sqNorm pt.position) ^ 2) else r

/-- The start-search radius of `Planner::plan` (planner.h line 598):
`Value start_tol = req.tolerance > 0. ? req.tolerance : neighborhood_radius_;` -/
def start_tol (tolerance neighborhood_radius : ℚ) : ℚ :=
  if tolerance > 0 then tolerance else neighborhood_radius

/-- Modelled from the spec: `Map::nearby_indices` lives in `naex/map.h`,
which is not under src/.  Per spec this "wraps the index radius query":
it returns the indices of all map points within radius `r` of `p`
(squared distances compared in ℚ). -/
def nearby_indices (cloud : List Point) (p : Vec3) (r : ℚ) : List ℕ :=
  (cloud.enum.filter (fun vp => decide (sqDist vp.2.position p ≤ r ^ 2))).map Prod.fst

/-- The candidate start vertices of `Planner::plan` (planner.h lines
599-609): the vertices returned by the radius query around the start
position that carry the TRAVERSABLE flag, in query order. -/
def traversable_candidates (cloud : List Point) (p : Vec3) (tol : ℚ) : List ℕ :=
  (nearby_indices cloud p tol).filter (fun v => hasTraversable cloud v)

/-- The shared shape of both goal-selection loops of `Planner::plan`:
scan vertices `0, …, n-1`; a vertex with an admissible score strictly below
the best score so far (initially `+∞`) becomes the new best.
`score v = none` models an inadmissible vertex (skipped / comparison with
NaN false). -/
def min_scan_step (score : ℕ → Option ℚ) (best : Option (ℕ × ℚ)) (v : ℕ) :
    Option (ℕ × ℚ) :=
  match score v with
  | none => best
  | some s =>
    match best with
    | none => some (v, s)
    | some (_, bs) => if s < bs then some (v, s) else best

/-- The scan itself, over vertices `0, …, n-1`. -/
def minScan (score : ℕ → Option ℚ) (n : ℕ) : Option (ℕ × ℚ) :=
  (List.range n).foldl (min_scan_step score) none

/-- Directed-mode goal score (planner.h lines 670-683): vertices with
non-finite path cost are skipped; admissible vertices are scored by the
distance of their position to the goal (squared here; the comparisons
agree). -/
def directed_score (cloud : List Point) (path_cost : ℕ → Option ℚ) (g : Vec3)
    (v : ℕ) : Option ℚ :=
  match path_cost v with
  | none => none
  | some _ => some (sqDist (getPos cloud v) g)

/-- Directed-mode goal selection (planner.h lines 668-683). -/
def select_goal_directed (cloud : List Point) (path_cost : ℕ → Option ℚ)
    (g : Vec3) : Option (ℕ × ℚ) :=
  minScan (directed_score cloud path_cost g) cloud.length

/-- Exploration-mode goal score (planner.h lines 781-787): a vertex is
admissible iff its reward is strictly positive and its (finite) path cost
exceeds 1 (`path_cost_ > 1.`; the NaN stored for unreachable vertices fails
that comparison); the score is the relative cost `path_cost / reward`. -/
def explore_score (cfg : PlanConfig) (cloud : List Point)
    (path_cost : ℕ → Option ℚ) (v : ℕ) : Option ℚ :=
  if reward cfg (cloud.getD v dummyPoint) > 0 then
    match path_cost v with
    | none => none
    | some c => if c > 1 then some (c / reward cfg (cloud.getD v dummyPoint)) else none
  else none

/-- Exploration-mode goal selection (planner.h lines 748-788). -/
def select_goal_explore (cfg : PlanConfig) (cloud : List Point)
    (path_cost : ℕ → Option ℚ) : Option (ℕ × ℚ) :=
  minScan (explore_score cfg cloud path_cost) cloud.length

/-- Loop body of `Planner::trace_path_indices` (planner.h lines 333-345):
```
Vertex v = goal;
while (v != start) { path_indices.push_back(v); v = predecessor[v]; }
path_indices.push_back(v);
std::reverse(path_indices.begin(), path_indices.end());
```
`fuel` bounds the walk (the C++ loop does not terminate when the
predecessor chain misses `start`; `none` models that divergence). -/
def trace_go (start : ℕ) (predecessor : ℕ → ℕ) :
    ℕ → ℕ → List ℕ → Option (List ℕ)
  | 0, v, acc =>
    if v = start then some ((acc ++ [v]).reverse) else none
  | fuel + 1, v, acc =>
    if v = start then some ((acc ++ [v]).reverse)
    else trace_go start predecessor fuel (predecessor v) (acc ++ [v])

/-- `Planner::trace_path_indices`. -/
def trace_path_indices (start goal : ℕ) (predecessor : ℕ → ℕ) (fuel : ℕ) :
    Option (List ℕ) :=
  trace_go start predecessor fuel goal []

/-- A planned pose; only the position is modelled here (orientations are
analysed separately via `pose_rotation`). -/
structure Pose where
  position : Vec3
  deriving DecidableEq

/-- The pose sequence built by a successful plan (planner.h lines 722-724
and 853-855): the resolved start pose followed by `Planner::append_path`,
which appends one pose per traced vertex at that vertex's position. -/
def build_path (startPos : Vec3) (cloud : List Point) (path_indices : List ℕ) :
    List Pose :=
  Pose.mk startPos :: path_indices.map (fun v => Pose.mk (getPos cloud v))

/-- A plan request (`nav_msgs::GetPlanRequest`): `none` positions model
NaN triplets (use self pose / exploration mode). -/
structure PlanRequest where
  start : Option Vec3
  goal : Option Vec3
  tolerance : ℚ

/-- The output of the external Dijkstra run
(`boost::dijkstra_shortest_paths_no_color_map`, planner.h lines 648-654)
from a given start vertex: per-vertex path cost (`none` = `+∞`,
unreachable) and predecessor. -/
structure DijkstraResult where
  path_cost : ℕ → Option ℚ
  predecessor : ℕ → ℕ

/-- Planner state visible to the plan service: the initialized flag, the
map cloud, the dirty vertex set, and the self pose available from the
transform source (`none` = transform lookup fails). -/
structure PlannerState where
  initialized : Bool
  cloud : List Point
  dirty : List ℕ
  selfPose : Option Vec3
  deriving DecidableEq

/-- The failure kinds of `Planner::plan` (the C++ returns `false` with a
logged message; the spec names the kinds). `traceDiverged` marks the case
where the C++ predecessor walk would not terminate. -/
inductive PlanError where
  | notInitialized
  | transformUnavailable
  | mapTooSmall
  | noStart
  | noPath
  | noGoal
  | traceDiverged
  deriving DecidableEq

/-- The start-pose resolution of `Planner::plan` (planner.h lines
536-553): a finite request start position is used as is; a non-finite one
is replaced by the self pose from the transform source (`none` when that
lookup fails, which makes the plan call fail). -/
def resolve_start_pose (req : PlanRequest) (st : PlannerState) : Option Vec3 :=
  match req.start with
  | some p => some p
  | none => st.selfPose

/-- `Planner::plan` (planner.h lines 514-861), with the external pieces as
parameters: `dij` is the Dijkstra run from the chosen start vertex and
`rand` the value of `std::rand()` used when `random_start` is set.
Faithful to the source order: initialized check, start-pose resolution,
map-size check, start-vertex search, Dijkstra, then directed or
exploration goal selection, trace and path building. -/
def plan (cfg : PlanConfig) (st : PlannerState) (dij : ℕ → DijkstraResult)
    (rand : ℕ) (req : PlanRequest) : Except PlanError (List Pose) :=
  if !st.initialized then .error .notInitialized
  else
    match resolve_start_pose req st with
    | none => .error .transformUnavailable
    | some startPos =>
      if st.cloud.length < cfg.k_neighbors then .error .mapTooSmall
      else
        let tol := start_tol req.tolerance cfg.neighborhood_radius
        match traversable_candidates st.cloud startPos tol with
        | [] => .error .noStart
        | v0 :: rest =>
          let v_start := if cfg.random_start
            then (v0 :: rest).getD (rand % (v0 :: rest).length) v0
            else v0
          let d := dij v_start
          match req.goal with
          | some g =>
            match select_goal_directed st.cloud d.path_cost g with
            | none => .error .noPath
            | some (v_goal, _) =>
              match trace_path_indices v_start v_goal d.predecessor st.cloud.length with
              | none => .error .traceDiverged
              | some l => .ok (build_path startPos st.cloud l)
          | none =>
            match select_goal_explore cfg st.cloud d.path_cost with
            | none => .error .noGoal
            | some (v_goal, _) =>
              match trace_path_indices v_start v_goal d.predecessor st.cloud.length with
              | none => .error .traceDiverged
              | some l => .ok (build_path startPos st.cloud l)

/-- The per-point keep test of `Planner::input_cloud_received`
(planner.h lines 1054-1074): drop points with `norm < 1` or `norm > 25`
(sensor-range gate), and points within 1 m of any known teammate position
(squared comparisons in ℚ). -/
def keep_point (robots : List Vec3) (p : Vec3) : Bool :=
  decide (1 ≤ sqNorm p) && decide (sqNorm p ≤ 625) &&
  robots.all (fun r => decide (1 ≤ sqDist p r))

/-- `Planner::input_cloud_received` (planner.h lines 997-1137) as a state
transformer.  `tfm` is the rigid transform into the map frame; `mergeFn`
stands for `Map::merge` followed by `update_dirty` (in `naex/map.h`, not
under src/), returning the new cloud and the new dirty set.  The source
filters in the sensor frame, transforms the kept points, and discards the
whole cloud before merging when fewer than 16 points survive
(`if (n_added < min_pts) return;`, lines 1080-1085).  `check_initialized`
throwing is modelled by returning the state unchanged. -/
def input_cloud_received (st : PlannerState) (robots : List Vec3)
    (pts : List Vec3) (tfm : Vec3 → Vec3)
    (mergeFn : List Point → List Vec3 → List Point × List ℕ) : PlannerState :=
  if !st.initialized then st
  else
    let kept := (pts.filter (keep_point robots)).map tfm
    if kept.length < 16 then st
    else
      let m := mergeFn st.cloud kept
      { st with cloud := m.1, dirty := m.2 }

/-- The concurrent activities that run after construction, with their
payloads (cloud ingestion and plan requests; the external merge function
is carried as event data since `Map::merge` is not under src/). -/
inductive Event where
  | inputCloud (robots : List Vec3) (pts : List Vec3) (tfm : Vec3 → Vec3)
      (mergeFn : List Point → List Vec3 → List Point × List ℕ)
  | planRequest (cfg : PlanConfig) (dij : ℕ → DijkstraResult) (rand : ℕ)
      (req : PlanRequest)

/-- Effect of one event on the planner state.  `Planner::plan` only reads
the state (its per-point writes of `reward_` / `path_cost_` /
`relative_cost_` are not read by any claim), so a plan request leaves the
modelled state unchanged. -/
def step (st : PlannerState) (ev : Event) : PlannerState :=
  match ev with
  | .inputCloud robots pts tfm mergeFn =>
    input_cloud_received st robots pts tfm mergeFn
  | .planRequest _ _ _ _ => st

/-- Run a sequence of events. -/
def run (st : PlannerState) (evs : List Event) : PlannerState :=
  evs.foldl step st

/-- End of the `Planner::Planner` constructor (planner.h lines 100-105):
after the bounded teammate discovery `find_robots(map_frame_, t, 15.f)`
returns, the constructor sets `initialized_ = true`.  This is the only
write of `initialized_` in the source. -/
def constructor_done (st : PlannerState) : PlannerState :=
  { st with initialized := true }

/-- A 3×3 matrix given by its columns, as assembled in
`Planner::append_path` (`m.col(0) = x; m.col(1) = z.cross(x); m.col(2) = z;`). -/
structure Mat3 where
  col0 : Vec3
  col1 : Vec3
  col2 : Vec3
  deriving DecidableEq

/-- The world-up vector used by `append_path` (`Vec3(0.f, 0.f, 1.f)`). -/
def worldUp : Vec3 := ((0 : ℚ), (0 : ℚ), (1 : ℚ))

/-- The sign fix of the point normal in `Planner::append_path`
(planner.h lines 391-394): `if (z.dot(Vec3(0,0,1)) < 0.) z = -z;`. -/
def fix_z (z : Vec3) : Vec3 :=
  if dot z worldUp < 0 then vneg z else z

/-- The orientation matrix built by `Planner::append_path`
(planner.h lines 396-402) from the normalized tangent `x` (the unit vector
along the difference of consecutive pose positions; normalization leaves ℚ,
so the unit tangent is taken as input) and the stored point normal `z`. -/
def pose_rotation (x z : Vec3) : Mat3 :=
  { col0 := x
    col1 := cross (fix_z z) x
    col2 := fix_z z }

/-- Determinant of a column matrix, via the scalar triple product. -/
def det3 (m : Mat3) : ℚ :=
  dot m.col0 (cross m.col1 m.col2)

/-! ## Concrete fixtures used by witnesses and counterexamples -/

/-- A small planner configuration (the source defaults, with
`k_neighbors := 1` so a two-point map passes the size gate). -/
def testCfg : PlanConfig :=
  { neighborhood_radius := 1/2
    min_vp_distance := 3/2
    max_vp_distance := 5
    self_factor := 1/4
    k_neighbors := 1
    random_start := false }

/-- A traversable frontier point at the origin, never visited. -/
def pt0 : Point :=
  { position := ((0 : ℚ), (0 : ℚ), (0 : ℚ))
    normal := worldUp
    flags := TRAVERSABLE
    num_edge_neighbors := 1
    dist_to_actor := none
    actor_last_visit := none
    dist_to_other_actors := none
    other_actors_last_visit := none }

/-- A traversable frontier point at (1,0,0), never visited. -/
def pt1 : Point :=
  { pt0 with position := ((1 : ℚ), (0 : ℚ), (0 : ℚ)) }

/-- An initialized two-point map state. -/
def testState : PlannerState :=
  { initialized := true
    cloud := [pt0, pt1]
    dirty := []
    selfPose := some ((0 : ℚ), (0 : ℚ), (0 : ℚ)) }

/-- A Dijkstra oracle that reaches nothing (all costs `+∞`). -/
def dijNone : ℕ → DijkstraResult :=
  fun _ => { path_cost := fun _ => none, predecessor := fun v => v }

/-- A Dijkstra oracle for `testState`: vertex 0 at cost 0, vertex 1 at
cost 2 with predecessor 0. -/
def dijGood : ℕ → DijkstraResult :=
  fun _ =>
    { path_cost := fun v => if v = 0 then some 0 else if v = 1 then some 2 else none
      predecessor := fun _ => 0 }

/-- A directed request from the origin to (1,0,0) with tolerance 2. -/
def reqDirected : PlanRequest :=
  { start := some ((0 : ℚ), (0 : ℚ), (0 : ℚ))
    goal := some ((1 : ℚ), (0 : ℚ), (0 : ℚ))
    tolerance := 2 }

/-- An exploration request (non-finite goal) from the origin. -/
def reqExplore : PlanRequest :=
  { start := some ((0 : ℚ), (0 : ℚ), (0 : ℚ))
    goal := none
    tolerance := 2 }

/-- The vertex exhibiting the reward divergence: self has never seen it
(`dist_to_actor` non-finite), a teammate has come within 2 m of it, and
that visit happened at timestamp 100 of the mission. -/
def ptDiverge : Point :=
  { position := ((1 : ℚ), (0 : ℚ), (0 : ℚ))
    normal := worldUp
    flags := TRAVERSABLE
    num_edge_neighbors := 0
    dist_to_actor := none
    actor_last_visit := none
    dist_to_other_actors := some 2
    other_actors_last_visit := some 100 }

/-! ## Helper lemmas -/

theorem sqNorm_vneg (a : Vec3) : sqNorm (vneg a) = sqNorm a := by
  obtain ⟨a1, a2, a3⟩ := a
  simp only [sqNorm, vneg, dot]
  ring

theorem dot_vneg_left (a b : Vec3) : dot (vneg a) b = -dot a b := by
  obtain ⟨a1, a2, a3⟩ := a
  obtain ⟨b1, b2, b3⟩ := b
  simp only [vneg, dot]
  ring

/-- Lagrange-style identity for the scalar triple product arising in
`pose_rotation`: the determinant of `[x, z × x, z]`. -/
theorem triple_product_lagrange (x z : Vec3) :
    dot x (cross (cross z x) z) = sqNorm x * sqNorm z - dot x z ^ 2 := by
  obtain ⟨x1, x2, x3⟩ := x
  obtain ⟨z1, z2, z3⟩ := z
  simp only [dot, cross, sqNorm]
  ring

theorem sqNorm_fix_z (z : Vec3) : sqNorm (fix_z z) = sqNorm z := by
  unfold fix_z
  split
  · exact sqNorm_vneg z
  · rfl

theorem fix_z_up_nonneg (z : Vec3) : 0 ≤ dot (fix_z z) worldUp := by
  unfold fix_z
  split
  · rw [dot_vneg_left]
    linarith
  · linarith [not_lt.mp (by assumption : ¬ dot z worldUp < 0)]

theorem minScan_succ (score : ℕ → Option ℚ) (n : ℕ) :
    minScan score (n + 1) = min_scan_step score (minScan score n) n := by
  unfold minScan
  rw [List.range_succ, List.foldl_append, List.foldl_cons, List.foldl_nil]

theorem min_scan_step_skip (score : ℕ → Option ℚ) (best : Option (ℕ × ℚ))
    (v : ℕ) (h : score v = none) : min_scan_step score best v = best := by
  unfold min_scan_step
  rw [h]

theorem min_scan_step_first (score : ℕ → Option ℚ) (v : ℕ) (s : ℚ)
    (h : score v = some s) : min_scan_step score none v = some (v, s) := by
  unfold min_scan_step
  rw [h]

theorem min_scan_step_better (score : ℕ → Option ℚ) (v bv : ℕ) (s bs : ℚ)
    (h : score v = some s) (hlt : s < bs) :
    min_scan_step score (some (bv, bs)) v = some (v, s) := by
  unfold min_scan_step
  rw [h]
  simp [hlt]

theorem min_scan_step_keep (score : ℕ → Option ℚ) (v bv : ℕ) (s bs : ℚ)
    (h : score v = some s) (hge : ¬ s < bs) :
    min_scan_step score (some (bv, bs)) v = some (bv, bs) := by
  unfold min_scan_step
  rw [h]
  simp [hge]

/-- Correctness of the shared goal-selection scan: a `none` result means no
vertex is admissible, and a `some (v, s)` result names an admissible vertex
whose score is minimal among all admissible vertices. -/
theorem minScan_spec (score : ℕ → Option ℚ) (n : ℕ) :
    (minScan score n = none → ∀ v, v < n → score v = none) ∧
    (∀ v s, minScan score n = some (v, s) →
      v < n ∧ score v = some s ∧
      ∀ u, u < n → ∀ t, score u = some t → s ≤ t) := by
  induction n with
  | zero =>
    constructor
    · intro _ v hv
      exact absurd hv (Nat.not_lt_zero v)
    · intro v s h
      simp [minScan] at h
  | succ n ih =>
    obtain ⟨ihn, ihs⟩ := ih
    cases hsn : score n with
    | none =>
      have hred : minScan score (n + 1) = minScan score n := by
        rw [minScan_succ, min_scan_step_skip score _ n hsn]
      constructor
      · intro h v hv
        rw [hred] at h
        rcases Nat.lt_succ_iff_lt_or_eq.mp hv with hlt | heq
        · exact ihn h v hlt
        · subst heq
          exact hsn
      · intro v s h
        rw [hred] at h
        obtain ⟨hv, hsv, hmin⟩ := ihs v s h
        refine ⟨Nat.lt_succ_of_lt hv, hsv, fun u hu t hsu => ?_⟩
        rcases Nat.lt_succ_iff_lt_or_eq.mp hu with hlt | heq
        · exact hmin u hlt t hsu
        · subst heq
          rw [hsn] at hsu
          cases hsu
    | some s0 =>
      cases hb : minScan score n with
      | none =>
        have hred : minScan score (n + 1) = some (n, s0) := by
          rw [minScan_succ, hb, min_scan_step_first score n s0 hsn]
        constructor
        · intro h
          rw [hred] at h
          cases h
        · intro v s h
          rw [hred] at h
          injection h with h'
          rw [Prod.mk.injEq] at h'
          obtain ⟨h1, h2⟩ := h'
          subst h1
          subst h2
          refine ⟨Nat.lt_succ_self _, hsn, fun u hu t hsu => ?_⟩
          rcases Nat.lt_succ_iff_lt_or_eq.mp hu with hlt | heq
          · rw [ihn hb u hlt] at hsu
            cases hsu
          · subst heq
            rw [hsn] at hsu
            injection hsu with h''
            rw [h'']
      | some p =>
        obtain ⟨bv, bs⟩ := p
        obtain ⟨hbv, hbsv, hbmin⟩ := ihs bv bs hb
        by_cases hlt : s0 < bs
        · have hred : minScan score (n + 1) = some (n, s0) := by
            rw [minScan_succ, hb, min_scan_step_better score n bv s0 bs hsn hlt]
          constructor
          · intro h
            rw [hred] at h
            cases h
          · intro v s h
            rw [hred] at h
            injection h with h'
            rw [Prod.mk.injEq] at h'
            obtain ⟨h1, h2⟩ := h'
            subst h1
            subst h2
            refine ⟨Nat.lt_succ_self _, hsn, fun u hu t hsu => ?_⟩
            rcases Nat.lt_succ_iff_lt_or_eq.mp hu with hlt2 | heq
            · have := hbmin u hlt2 t hsu
              linarith
            · subst heq
              rw [hsn] at hsu
              injection hsu with h''
              rw [h'']
        · have hred : minScan score (n + 1) = some (bv, bs) := by
            rw [minScan_succ, hb, min_scan_step_keep score n bv s0 bs hsn hlt]
          constructor
          · intro h
            rw [hred] at h
            cases h
          · intro v s h
            rw [hred] at h
            injection h with h'
            rw [Prod.mk.injEq] at h'
            obtain ⟨h1, h2⟩ := h'
            subst h1
            subst h2
            refine ⟨Nat.lt_succ_of_lt hbv, hbsv, fun u hu t hsu => ?_⟩
            rcases Nat.lt_succ_iff_lt_or_eq.mp hu with hlt2 | heq
            · exact hbmin u hlt2 t hsu
            · subst heq
              rw [hsn] at hsu
              injection hsu with h''
              rw [← h'']
              exact not_lt.mp hlt

/-- If no vertex is admissible the scan returns `none`. -/
theorem minScan_eq_none (score : ℕ → Option ℚ) (n : ℕ)
    (h : ∀ v, v < n → score v = none) : minScan score n = none := by
  induction n with
  | zero => rfl
  | succ n ih =>
    rw [minScan_succ]
    unfold min_scan_step
    rw [h n (Nat.lt_succ_self n)]
    exact ih (fun v hv => h v (Nat.lt_succ_of_lt hv))

/-- Correctness of the accumulator loop of `trace_path_indices`: a
successful walk extends the accumulator with a predecessor chain from the
current vertex down to the start vertex. -/
theorem trace_go_correct (start : ℕ) (predecessor : ℕ → ℕ) :
    ∀ (fuel v : ℕ) (acc l : List ℕ),
      trace_go start predecessor fuel v acc = some l →
      ∃ walk : List ℕ,
        l.reverse = acc ++ walk ∧
        walk.head? = some v ∧
        walk.getLast? = some start ∧
        (List.Chain' (fun a b : ℕ => predecessor a = b) (acc ++ [v]) →
          List.Chain' (fun a b : ℕ => predecessor a = b) (acc ++ walk)) := by
  intro fuel
  induction fuel with
  | zero =>
    intro v acc l h
    unfold trace_go at h
    split at h
    case isTrue hvs =>
      injection h with h'
      refine ⟨[v], ?_, rfl, ?_, fun hc => hc⟩
      · rw [← h', List.reverse_reverse]
      · rw [List.getLast?_singleton, hvs]
    case isFalse hvs =>
      cases h
  | succ fuel ih =>
    intro v acc l h
    unfold trace_go at h
    split at h
    case isTrue hvs =>
      injection h with h'
      refine ⟨[v], ?_, rfl, ?_, fun hc => hc⟩
      · rw [← h', List.reverse_reverse]
      · rw [List.getLast?_singleton, hvs]
    case isFalse hvs =>
      obtain ⟨walk', hrev, hhead, hlast, hchain⟩ :=
        ih (predecessor v) (acc ++ [v]) l h
      have hwalk' : walk' ≠ [] := by
        intro hnil
        rw [hnil] at hhead
        cases hhead
      refine ⟨v :: walk', ?_, rfl, ?_, ?_⟩
      · rw [hrev, List.append_assoc, List.singleton_append]
      · cases walk' with
        | nil => exact absurd rfl hwalk'
        | cons a as => rw [List.getLast?_cons_cons]; exact hlast
      · intro hc
        have hstep : List.Chain' (fun a b : ℕ => predecessor a = b)
            ((acc ++ [v]) ++ [predecessor v]) := by
          refine List.Chain'.append hc (List.chain'_singleton _) ?_
          intro x hx y hy
          rw [List.getLast?_concat, Option.mem_def] at hx
          injection hx with hx'
          rw [Option.mem_def] at hy
          injection hy with hy'
          rw [← hx', ← hy']
        have := hchain hstep
        rw [List.append_assoc, List.singleton_append] at this
        exact this

/-- C6 core: a successful predecessor walk yields a vertex sequence that
starts at the start vertex, ends at the goal vertex, and steps along the
predecessor map. -/
theorem trace_path_indices_spec (start goal : ℕ) (predecessor : ℕ → ℕ)
    (fuel : ℕ) (l : List ℕ)
    (h : trace_path_indices start goal predecessor fuel = some l) :
    l.head? = some start ∧ l.getLast? = some goal ∧
    List.Chain' (fun u w : ℕ => predecessor w = u) l := by
  obtain ⟨walk, hrev, hhead, hlast, hchain⟩ :=
    trace_go_correct start predecessor fuel goal [] l h
  rw [List.nil_append] at hrev hchain
  have hl : l = walk.reverse := by
    rw [← hrev, List.reverse_reverse]
  subst hl
  refine ⟨?_, ?_, ?_⟩
  · rw [List.head?_reverse]
    exact hlast
  · rw [List.getLast?_reverse]
    exact hhead
  · rw [List.chain'_reverse]
    have := hchain (List.chain'_singleton goal)
    exact this

/-- The exploration score is `none` exactly on ineligible vertices. -/
theorem explore_score_none_of_ineligible (cfg : PlanConfig)
    (cloud : List Point) (pcs : ℕ → Option ℚ) (v : ℕ)
    (h : ¬ (0 < reward cfg (cloud.getD v dummyPoint) ∧
            ∃ pc, pcs v = some pc ∧ 1 < pc)) :
    explore_score cfg cloud pcs v = none := by
  unfold explore_score
  split
  case isTrue hr =>
    cases hpc : pcs v with
    | none => rfl
    | some c =>
      dsimp only
      split
      case isTrue hc => exact absurd ⟨hr, c, hpc, hc⟩ h
      case isFalse hc => rfl
  case isFalse hr => rfl

/-- The exploration score of an admissible vertex is its relative cost
`path_cost / reward`, and admissibility is exactly the eligibility of the
claim: strictly positive reward and path cost above the floor 1. -/
theorem explore_score_eq_some_iff (cfg : PlanConfig) (cloud : List Point)
    (pcs : ℕ → Option ℚ) (v : ℕ) (c : ℚ) :
    explore_score cfg cloud pcs v = some c ↔
      (0 < reward cfg (cloud.getD v dummyPoint) ∧
       ∃ pc, pcs v = some pc ∧ 1 < pc ∧
         c = pc / reward cfg (cloud.getD v dummyPoint)) := by
  unfold explore_score
  constructor
  · intro h
    split at h
    case isTrue hr =>
      split at h
      case h_1 => cases h
      case h_2 pc heq =>
        split at h
        case isTrue hc =>
          injection h with h'
          exact ⟨hr, pc, heq, hc, h'.symm⟩
        case isFalse hc => cases h
    case isFalse hr => cases h
  · rintro ⟨hr, pc, hpc, hgt, hc⟩
    rw [if_pos hr, hpc]
    dsimp only
    rw [if_pos hgt, hc]

/-- Events never write the initialized flag; only the constructor does. -/
theorem step_initialized (st : PlannerState) (ev : Event) :
    (step st ev).initialized = st.initialized := by
  cases ev with
  | inputCloud robots pts tfm mergeFn =>
    simp only [step, input_cloud_received]
    split
    · rfl
    · split
      · rfl
      · rfl
  | planRequest cfg dij rand req => rfl

theorem run_initialized (evs : List Event) :
    ∀ st : PlannerState, (run st evs).initialized = st.initialized := by
  induction evs with
  | nil => intro st; rfl
  | cons ev evs ih =>
    intro st
    unfold run at *
    rw [List.foldl_cons, ih, step_initialized]

/-! ## C2 — the per-actor distance reward -/

/-- C2 counterexample: the claim says a finite distance `d` with
`0 < d < min_vp_distance` is rewarded `min_vp_distance / max_vp_distance`;
the code rewards it `0`.  With `min_vp_distance = 3/2`,
`max_vp_distance = 5`, `d = 1`: code gives `0`, claim demands `3/10`. -/
theorem distance_reward_not_clipped_low :
    distance_reward (3/2) 5 (some 1) = 0 ∧ ((3 : ℚ)/2) / 5 ≠ 0 := by
  constructor
  · norm_num [distance_reward]
  · norm_num

/-- C2 amended: `Planner::distance_reward` zeroes distances below
`min_vp_distance` (it does not clip them up to it) and applies no upper
clip at `max_vp_distance`; a non-finite distance yields exactly 1. -/
theorem distance_reward_amended (minVp maxVp x : ℚ)
    (h0 : 0 < minVp) (h1 : minVp ≤ maxVp) :
    distance_reward minVp maxVp none = 1 ∧
    distance_reward minVp maxVp (some x) =
      (if x ≥ minVp then x / maxVp else 0) := by
  have hmax : maxVp ≠ 0 := by linarith
  constructor
  · simp only [distance_reward, ge_iff_le, h1, if_true]
    exact div_self hmax
  · simp only [distance_reward, ge_iff_le]
    split
    · rfl
    · exact zero_div maxVp

/-- C2 witness: the amended statement at `min_vp_distance = 3/2`,
`max_vp_distance = 5`, `d = 1`. -/
theorem distance_reward_amended_witness :
    distance_reward (3/2) 5 none = 1 ∧
    distance_reward (3/2) 5 (some 1) = (if (1 : ℚ) ≥ 3/2 then 1 / 5 else 0) :=
  distance_reward_amended (3/2) 5 1 (by norm_num) (by norm_num)

/-! ## C3 — the start-search radius -/

/-- C3 counterexample: with tolerance 1/10 and neighborhood radius 1/2, a
traversable vertex 3/10 m from the requested start lies within
`max(tolerance, neighborhood_radius)`, yet the plan call fails with
NoStart, because the code searches only within the tolerance. -/
theorem start_radius_not_max :
    plan testCfg
      { initialized := true
        cloud := [{ pt0 with position := ((3/10 : ℚ), (0 : ℚ), (0 : ℚ)) }]
        dirty := []
        selfPose := some ((0 : ℚ), (0 : ℚ), (0 : ℚ)) }
      dijNone 0
      { start := some ((0 : ℚ), (0 : ℚ), (0 : ℚ))
        goal := some ((1 : ℚ), (0 : ℚ), (0 : ℚ))
        tolerance := 1/10 } = .error .noStart ∧
    (0 : ℕ) ∈ nearby_indices [{ pt0 with position := ((3/10 : ℚ), (0 : ℚ), (0 : ℚ)) }]
      ((0 : ℚ), (0 : ℚ), (0 : ℚ)) (max (1/10) testCfg.neighborhood_radius) ∧
    hasTraversable [{ pt0 with position := ((3/10 : ℚ), (0 : ℚ), (0 : ℚ)) }] 0 = true := by
  refine ⟨?_, ?_, ?_⟩
  · norm_num [plan, resolve_start_pose, start_tol, traversable_candidates,
      nearby_indices, hasTraversable, sqDist, sqNorm, dot, pt0, testCfg,
      List.enum, List.enumFrom, List.filter, dummyPoint, TRAVERSABLE]
  · norm_num [nearby_indices, sqDist, sqNorm, dot, pt0, testCfg,
      List.enum, List.enumFrom, List.filter, max_def]
  · norm_num [hasTraversable, pt0, dummyPoint, TRAVERSABLE]

/-- C3 amended: the candidate start vertices are the TRAVERSABLE vertices
of the radius query whose radius is the requested tolerance whenever it is
positive, and `neighborhood_radius` only when the tolerance is not
positive; in particular the radius can be smaller than
`neighborhood_radius`. -/
theorem start_tol_amended (tol nr : ℚ) (cloud : List Point) (p : Vec3) :
    (0 < tol → start_tol tol nr = tol) ∧
    (tol ≤ 0 → start_tol tol nr = nr) ∧
    traversable_candidates cloud p (start_tol tol nr)
      = (nearby_indices cloud p (start_tol tol nr)).filter
          (fun v => hasTraversable cloud v) := by
  refine ⟨?_, ?_, rfl⟩
  · intro h
    simp [start_tol, h]
  · intro h
    simp [start_tol, not_lt.mpr h]

/-- C3 witness: the amended statement at tolerance 1/10,
neighborhood radius 1/2, on the one-point map of the counterexample. -/
theorem start_tol_amended_witness :
    start_tol (1/10) (1/2) = 1/10 ∧
    traversable_candidates [pt0] ((0 : ℚ), (0 : ℚ), (0 : ℚ)) (start_tol (1/10) (1/2))
      = (nearby_indices [pt0] ((0 : ℚ), (0 : ℚ), (0 : ℚ)) (start_tol (1/10) (1/2))).filter
          (fun v => hasTraversable [pt0] v) :=
  ⟨(start_tol_amended (1/10) (1/2) [pt0] ((0 : ℚ), (0 : ℚ), (0 : ℚ))).1 (by norm_num),
   (start_tol_amended (1/10) (1/2) [pt0] ((0 : ℚ), (0 : ℚ), (0 : ℚ))).2.2⟩

/-! ## C1 — the exploration reward -/

/-- C1: at `ptDiverge` (teammate visited at distance 2, timestamp 100,
self never there) the code computes reward 1 because it feeds the visit
timestamp `other_actors_last_visit_` into `distance_reward`, while the
formula of the claim (with the teammate visitation distance
`dist_to_other_actors_`) gives 2/5. -/
theorem reward_other_term_divergence :
    reward testCfg ptDiverge = 1 ∧
    reward_spec_formula testCfg ptDiverge = 2/5 ∧
    reward testCfg ptDiverge ≠ reward_spec_formula testCfg ptDiverge := by
  have h1 : reward testCfg ptDiverge = 1 := by
    norm_num [reward, distance_reward, in_staging_area, testCfg, ptDiverge,
      sqNorm, dot, min_def, max_def]
  have h2 : reward_spec_formula testCfg ptDiverge = 2/5 := by
    norm_num [reward_spec_formula, distance_reward, in_staging_area, testCfg, ptDiverge,
      sqNorm, dot, min_def, max_def]
  refine ⟨h1, h2, ?_⟩
  rw [h1, h2]
  norm_num

/-! ## C8 — pose orientations -/

/-- C8 counterexample: with unit tangent `x = (1,0,0)` and unit normal
`z = (3/5, 0, 4/5)` (already upward, so the sign fix keeps it), the
orientation matrix built by `append_path` has determinant 16/25, not +1:
the claim's determinant statement fails whenever the tangent is not
orthogonal to the normal. -/
theorem pose_rotation_det_counterexample :
    sqNorm ((1 : ℚ), (0 : ℚ), (0 : ℚ)) = 1 ∧
    sqNorm ((3/5 : ℚ), (0 : ℚ), (4/5 : ℚ)) = 1 ∧
    fix_z ((3/5 : ℚ), (0 : ℚ), (4/5 : ℚ)) = ((3/5 : ℚ), (0 : ℚ), (4/5 : ℚ)) ∧
    det3 (pose_rotation ((1 : ℚ), (0 : ℚ), (0 : ℚ)) ((3/5 : ℚ), (0 : ℚ), (4/5 : ℚ)))
      = 16/25 ∧
    (16/25 : ℚ) ≠ 1 := by
  refine ⟨?_, ?_, ?_, ?_, ?_⟩
  · norm_num [sqNorm, dot]
  · norm_num [sqNorm, dot]
  · norm_num [fix_z, dot, worldUp]
  · norm_num [det3, pose_rotation, fix_z, dot, cross, worldUp, vneg]
  · norm_num

/-- C8 amended: for a unit tangent `x` and a unit point normal `z`, the
matrix built by `append_path` has x-axis `x`, z-axis the sign-fixed normal
with `z · world_up ≥ 0`, y-axis `z × x`, and determinant
`1 − (x · z)²` — so the frame is right-handed with determinant +1 exactly
when the tangent is orthogonal to the normal, and the determinant lies
below 1 otherwise. -/
theorem pose_rotation_amended (x z : Vec3)
    (hx : sqNorm x = 1) (hz : sqNorm z = 1) :
    0 ≤ dot (fix_z z) worldUp ∧
    (pose_rotation x z).col0 = x ∧
    (pose_rotation x z).col1 = cross (fix_z z) x ∧
    (pose_rotation x z).col2 = fix_z z ∧
    det3 (pose_rotation x z) = 1 - dot x (fix_z z) ^ 2 ∧
    (dot x (fix_z z) = 0 → det3 (pose_rotation x z) = 1) := by
  have hdet : det3 (pose_rotation x z) = 1 - dot x (fix_z z) ^ 2 := by
    have h := triple_product_lagrange x (fix_z z)
    have hz' : sqNorm (fix_z z) = 1 := by rw [sqNorm_fix_z, hz]
    simp only [det3, pose_rotation] at *
    rw [h, hx, hz']
    ring
  refine ⟨fix_z_up_nonneg z, rfl, rfl, rfl, hdet, ?_⟩
  intro h0
  rw [hdet, h0]
  ring

/-- C8 witness: the amended statement at the flat-ground pose
`x = (1,0,0)`, `z = (0,0,1)`; there the tangent is orthogonal to the
normal and the determinant is +1. -/
theorem pose_rotation_amended_witness :
    0 ≤ dot (fix_z worldUp) worldUp ∧
    (pose_rotation ((1 : ℚ), (0 : ℚ), (0 : ℚ)) worldUp).col0
      = ((1 : ℚ), (0 : ℚ), (0 : ℚ)) ∧
    (pose_rotation ((1 : ℚ), (0 : ℚ), (0 : ℚ)) worldUp).col1
      = cross (fix_z worldUp) ((1 : ℚ), (0 : ℚ), (0 : ℚ)) ∧
    (pose_rotation ((1 : ℚ), (0 : ℚ), (0 : ℚ)) worldUp).col2 = fix_z worldUp ∧
    det3 (pose_rotation ((1 : ℚ), (0 : ℚ), (0 : ℚ)) worldUp)
      = 1 - dot ((1 : ℚ), (0 : ℚ), (0 : ℚ)) (fix_z worldUp) ^ 2 ∧
    (dot ((1 : ℚ), (0 : ℚ), (0 : ℚ)) (fix_z worldUp) = 0 →
      det3 (pose_rotation ((1 : ℚ), (0 : ℚ), (0 : ℚ)) worldUp) = 1) :=
  pose_rotation_amended ((1 : ℚ), (0 : ℚ), (0 : ℚ)) worldUp
    (by norm_num [sqNorm, dot]) (by norm_num [sqNorm, dot, worldUp])

/-! ## C9 — planner lifecycle -/

/-- C9: while the planner is not initialized, every plan request is
rejected with NotInitialized regardless of the map, the Dijkstra oracle or
the request — so start resolution, Dijkstra and goal selection are never
consulted — and the initialized flag is set exactly once: it is true after
the constructor's bounded teammate discovery completes and no later event
ever changes it (so it stays false along any event sequence that does not
include the constructor). -/
theorem planner_lifecycle (cfg : PlanConfig) (st : PlannerState)
    (dij : ℕ → DijkstraResult) (rand : ℕ) (req : PlanRequest)
    (evs : List Event) (h : st.initialized = false) :
    plan cfg st dij rand req = .error .notInitialized ∧
    (run (constructor_done st) evs).initialized = true ∧
    (run st evs).initialized = false := by
  refine ⟨?_, ?_, ?_⟩
  · simp [plan, h]
  · rw [run_initialized]
    rfl
  · rw [run_initialized]
    exact h

/-- C9 witness: the uninitialized two-point state rejects the directed
request, and the flag behaviour holds along the empty event sequence. -/
theorem planner_lifecycle_witness :
    plan testCfg { testState with initialized := false } dijNone 0 reqDirected
      = .error .notInitialized ∧
    (run (constructor_done { testState with initialized := false }) []).initialized
      = true ∧
    (run { testState with initialized := false } []).initialized = false :=
  planner_lifecycle testCfg { testState with initialized := false }
    dijNone 0 reqDirected [] rfl

/-! ## C10 — small input clouds are discarded whole -/

/-- C10: when fewer than 16 points survive the sensor-range gate and the
robot filter, `input_cloud_received` discards the cloud before merging:
the state — in particular the point cloud and the dirty set — is
unchanged, for every possible merge function. -/
theorem input_cloud_min_points_discard (st : PlannerState)
    (robots : List Vec3) (pts : List Vec3) (tfm : Vec3 → Vec3)
    (mergeFn : List Point → List Vec3 → List Point × List ℕ)
    (h : (pts.filter (keep_point robots)).length < 16) :
    input_cloud_received st robots pts tfm mergeFn = st ∧
    (input_cloud_received st robots pts tfm mergeFn).cloud = st.cloud ∧
    (input_cloud_received st robots pts tfm mergeFn).dirty = st.dirty := by
  have heq : input_cloud_received st robots pts tfm mergeFn = st := by
    simp only [input_cloud_received]
    split
    · rfl
    · rw [List.length_map, if_pos h]
  exact ⟨heq, by rw [heq], by rw [heq]⟩

/-- C10 witness: a one-point cloud (at most one survivor) leaves the state
unchanged even under a merge function that would rewrite the whole map. -/
theorem input_cloud_min_points_discard_witness :
    input_cloud_received testState [] [((1 : ℚ), (1 : ℚ), (1 : ℚ))] id
      (fun _ _ => ([], [0])) = testState ∧
    (input_cloud_received testState [] [((1 : ℚ), (1 : ℚ), (1 : ℚ))] id
      (fun _ _ => ([], [0]))).cloud = testState.cloud ∧
    (input_cloud_received testState [] [((1 : ℚ), (1 : ℚ), (1 : ℚ))] id
      (fun _ _ => ([], [0]))).dirty = testState.dirty :=
  input_cloud_min_points_discard testState [] [((1 : ℚ), (1 : ℚ), (1 : ℚ))] id
    (fun _ _ => ([], [0]))
    (lt_of_le_of_lt (List.length_filter_le _ _) (by norm_num))

/-! ## C4 — NoStart when no traversable vertex is in range -/

/-- C4: if no vertex inside the start-search radius around the resolved
start position carries the TRAVERSABLE flag, the plan call fails with
NoStart and returns no path. -/
theorem plan_no_traversable_start_fails (cfg : PlanConfig) (st : PlannerState)
    (dij : ℕ → DijkstraResult) (rand : ℕ) (req : PlanRequest) (p : Vec3)
    (hinit : st.initialized = true)
    (hres : resolve_start_pose req st = some p)
    (hsize : cfg.k_neighbors ≤ st.cloud.length)
    (hnone : ∀ v ∈ nearby_indices st.cloud p
        (start_tol req.tolerance cfg.neighborhood_radius),
      hasTraversable st.cloud v = false) :
    plan cfg st dij rand req = .error .noStart := by
  have hcand : traversable_candidates st.cloud p
      (start_tol req.tolerance cfg.neighborhood_radius) = [] := by
    unfold traversable_candidates
    rw [List.filter_eq_nil_iff]
    intro a ha
    rw [hnone a ha]
    exact Bool.false_ne_true
  simp [plan, hinit, hres, Nat.not_lt.mpr hsize, hcand]

/-- C4 witness: a one-point map whose only point is not traversable makes
the directed request fail with NoStart. -/
theorem plan_no_traversable_start_fails_witness :
    plan testCfg
      { initialized := true
        cloud := [{ pt0 with flags := 0 }]
        dirty := []
        selfPose := some ((0 : ℚ), (0 : ℚ), (0 : ℚ)) }
      dijNone 0 reqDirected = .error .noStart :=
  plan_no_traversable_start_fails testCfg
    { initialized := true
      cloud := [{ pt0 with flags := 0 }]
      dirty := []
      selfPose := some ((0 : ℚ), (0 : ℚ), (0 : ℚ)) }
    dijNone 0 reqDirected ((0 : ℚ), (0 : ℚ), (0 : ℚ))
    rfl rfl (by norm_num [testCfg])
    (by
      intro v _
      cases v <;>
        simp [hasTraversable, dummyPoint, TRAVERSABLE, pt0,
          List.getD_cons_zero, List.getD_cons_succ, List.getD_nil])

/-! ## C5 — directed goal selection -/

/-- C5: in directed mode the chosen goal vertex minimizes the Euclidean
distance to the requested goal among all vertices with finite Dijkstra
path cost (squared distances compared; the orderings agree), and when no
vertex has finite path cost the plan call fails with NoPath and returns no
path. -/
theorem plan_directed_goal_selection (cfg : PlanConfig) (st : PlannerState)
    (dij : ℕ → DijkstraResult) (rand : ℕ) (req : PlanRequest) (p g : Vec3)
    (hinit : st.initialized = true)
    (hres : resolve_start_pose req st = some p)
    (hgoal : req.goal = some g)
    (hsize : cfg.k_neighbors ≤ st.cloud.length)
    (htrav : traversable_candidates st.cloud p
        (start_tol req.tolerance cfg.neighborhood_radius) ≠ []) :
    ((∀ s v, v < st.cloud.length → (dij s).path_cost v = none) →
      plan cfg st dij rand req = .error .noPath) ∧
    (∀ pcs : ℕ → Option ℚ, ∀ v c,
      select_goal_directed st.cloud pcs g = some (v, c) →
      v < st.cloud.length ∧
      (∃ cv, pcs v = some cv) ∧
      c = sqDist (getPos st.cloud v) g ∧
      ∀ u, u < st.cloud.length → (∃ cu, pcs u = some cu) →
        sqDist (getPos st.cloud v) g ≤ sqDist (getPos st.cloud u) g ∧
        Real.sqrt ((sqDist (getPos st.cloud v) g : ℚ) : ℝ)
          ≤ Real.sqrt ((sqDist (getPos st.cloud u) g : ℚ) : ℝ)) := by
  constructor
  · intro hnone
    obtain ⟨v0, rest, hvr⟩ := List.exists_cons_of_ne_nil htrav
    have hsel : ∀ s, select_goal_directed st.cloud (dij s).path_cost g = none := by
      intro s
      apply minScan_eq_none
      intro v hv
      unfold directed_score
      rw [hnone s v hv]
    simp [plan, hinit, hres, hgoal, Nat.not_lt.mpr hsize, hvr, hsel]
  · intro pcs v c hsel
    obtain ⟨hv, hscore, hmin⟩ :=
      (minScan_spec (directed_score st.cloud pcs g) st.cloud.length).2 v c hsel
    unfold directed_score at hscore
    cases hpc : pcs v with
    | none =>
      rw [hpc] at hscore
      cases hscore
    | some cv =>
      rw [hpc] at hscore
      injection hscore with h'
      refine ⟨hv, ⟨cv, rfl⟩, h'.symm, ?_⟩
      intro u hu hcu
      obtain ⟨cu, hcu⟩ := hcu
      have hscoreu : directed_score st.cloud pcs g u
          = some (sqDist (getPos st.cloud u) g) := by
        unfold directed_score
        rw [hcu]
      have hle := hmin u hu (sqDist (getPos st.cloud u) g) hscoreu
      rw [← h'] at hle
      exact ⟨hle, Real.sqrt_le_sqrt (by exact_mod_cast hle)⟩

/-- C5 witness: on the two-point map with an unreachable-everything
Dijkstra oracle, the directed request fails with NoPath. -/
theorem plan_directed_goal_selection_witness :
    plan testCfg testState dijNone 0 reqDirected = .error .noPath :=
  (plan_directed_goal_selection testCfg testState dijNone 0 reqDirected
    ((0 : ℚ), (0 : ℚ), (0 : ℚ)) ((1 : ℚ), (0 : ℚ), (0 : ℚ))
    rfl rfl rfl (by norm_num [testCfg, testState])
    (by
      norm_num [traversable_candidates, nearby_indices, hasTraversable,
        start_tol, sqDist, sqNorm, dot, testState, testCfg, reqDirected,
        pt0, pt1, dummyPoint, TRAVERSABLE, List.enum, List.enumFrom,
        List.filter]
      simp)).1
    (fun _ _ _ => rfl)

/-! ## C7 — exploration goal selection -/

/-- C7: in exploration mode a vertex is eligible iff its reward is
strictly positive and its (finite) path cost exceeds the floor 1; the
chosen goal is an eligible vertex minimizing the relative cost
`path_cost / reward`, and when no vertex is eligible the plan call fails
with NoGoal and returns no path. -/
theorem plan_explore_goal_selection (cfg : PlanConfig) (st : PlannerState)
    (dij : ℕ → DijkstraResult) (rand : ℕ) (req : PlanRequest) (p : Vec3)
    (hinit : st.initialized = true)
    (hres : resolve_start_pose req st = some p)
    (hgoal : req.goal = none)
    (hsize : cfg.k_neighbors ≤ st.cloud.length)
    (htrav : traversable_candidates st.cloud p
        (start_tol req.tolerance cfg.neighborhood_radius) ≠ []) :
    ((∀ s v, v < st.cloud.length →
        ¬ (0 < reward cfg (st.cloud.getD v dummyPoint) ∧
           ∃ pc, (dij s).path_cost v = some pc ∧ 1 < pc)) →
      plan cfg st dij rand req = .error .noGoal) ∧
    (∀ pcs : ℕ → Option ℚ, ∀ v c,
      select_goal_explore cfg st.cloud pcs = some (v, c) →
      v < st.cloud.length ∧
      0 < reward cfg (st.cloud.getD v dummyPoint) ∧
      (∃ pc, pcs v = some pc ∧ 1 < pc ∧
        c = pc / reward cfg (st.cloud.getD v dummyPoint)) ∧
      ∀ u, u < st.cloud.length →
        ∀ pu, pcs u = some pu → 1 < pu →
        0 < reward cfg (st.cloud.getD u dummyPoint) →
        c ≤ pu / reward cfg (st.cloud.getD u dummyPoint)) := by
  constructor
  · intro hnone
    obtain ⟨v0, rest, hvr⟩ := List.exists_cons_of_ne_nil htrav
    have hsel : ∀ s, select_goal_explore cfg st.cloud (dij s).path_cost = none := by
      intro s
      apply minScan_eq_none
      intro v hv
      exact explore_score_none_of_ineligible cfg st.cloud _ v (hnone s v hv)
    simp [plan, hinit, hres, hgoal, Nat.not_lt.mpr hsize, hvr, hsel]
  · intro pcs v c hsel
    obtain ⟨hv, hscore, hmin⟩ :=
      (minScan_spec (explore_score cfg st.cloud pcs) st.cloud.length).2 v c hsel
    obtain ⟨hr, pc, hpc, hgt, hc⟩ :=
      (explore_score_eq_some_iff cfg st.cloud pcs v c).mp hscore
    refine ⟨hv, hr, ⟨pc, hpc, hgt, hc⟩, ?_⟩
    intro u hu pu hpu hpu1 hru
    exact hmin u hu _
      ((explore_score_eq_some_iff cfg st.cloud pcs u _).mpr
        ⟨hru, pu, hpu, hpu1, rfl⟩)

/-- C7 witness: with the unreachable-everything Dijkstra oracle no vertex
has a finite path cost, so no vertex is eligible and the exploration
request fails with NoGoal. -/
theorem plan_explore_goal_selection_witness :
    plan testCfg testState dijNone 0 reqExplore = .error .noGoal :=
  (plan_explore_goal_selection testCfg testState dijNone 0 reqExplore
    ((0 : ℚ), (0 : ℚ), (0 : ℚ))
    rfl rfl rfl (by norm_num [testCfg, testState])
    (by
      norm_num [traversable_candidates, nearby_indices, hasTraversable,
        start_tol, sqDist, sqNorm, dot, testState, testCfg, reqExplore,
        pt0, pt1, dummyPoint, TRAVERSABLE, List.enum, List.enumFrom,
        List.filter]
      simp)).1
    (by
      intro s v _
      rintro ⟨-, pc, hpc, -⟩
      simp [dijNone] at hpc)

/-! ## C6 — structure of a successful plan -/

/-- C6: every successful plan returns the resolved start pose (the one
produced by `resolve_start_pose`) followed by exactly the positions of the
vertex sequence obtained by walking predecessors from the chosen goal
vertex back to the chosen start vertex and reversing; the start vertex is
the one chosen from the traversable candidates (the first, or the
`rand`-indexed one under `random_start`), the goal vertex is the one
returned by the mode's goal selection, and the traced sequence starts at
the start vertex, ends at the goal vertex, and each consecutive pair
`(u, w)` satisfies `predecessor w = u`. -/
theorem plan_path_structure (cfg : PlanConfig) (st : PlannerState)
    (dij : ℕ → DijkstraResult) (rand : ℕ) (req : PlanRequest) (ps : List Pose)
    (hok : plan cfg st dij rand req = .ok ps) :
    ∃ startPos v0 rest v_start v_goal l,
      resolve_start_pose req st = some startPos ∧
      traversable_candidates st.cloud startPos
        (start_tol req.tolerance cfg.neighborhood_radius) = v0 :: rest ∧
      v_start = (if cfg.random_start
        then (v0 :: rest).getD (rand % (v0 :: rest).length) v0
        else v0) ∧
      ((∃ g c, req.goal = some g ∧
          select_goal_directed st.cloud (dij v_start).path_cost g
            = some (v_goal, c)) ∨
       (req.goal = none ∧
        ∃ c, select_goal_explore cfg st.cloud (dij v_start).path_cost
          = some (v_goal, c))) ∧
      trace_path_indices v_start v_goal (dij v_start).predecessor
        st.cloud.length = some l ∧
      ps = build_path startPos st.cloud l ∧
      ps.head? = some (Pose.mk startPos) ∧
      List.drop 1 ps = l.map (fun v => Pose.mk (getPos st.cloud v)) ∧
      l.head? = some v_start ∧
      l.getLast? = some v_goal ∧
      List.Chain' (fun u w : ℕ => (dij v_start).predecessor w = u) l := by
  simp only [plan] at hok
  split at hok
  case isTrue => cases hok
  case isFalse =>
    split at hok
    case h_1 => cases hok
    case h_2 startPos hsp =>
      split at hok
      case isTrue => cases hok
      case isFalse =>
        split at hok
        case h_1 => cases hok
        case h_2 v0 rest hcand =>
          split at hok
          case h_1 g hg =>
            split at hok
            case h_1 => cases hok
            case h_2 v_goal c hselect =>
              split at hok
              case h_1 => cases hok
              case h_2 l htrace =>
                injection hok with h'
                obtain ⟨hhead, hlast, hchain⟩ :=
                  trace_path_indices_spec _ _ _ _ _ htrace
                refine ⟨startPos, v0, rest, _, v_goal, l, hsp, hcand, rfl,
                  Or.inl ⟨g, c, hg, hselect⟩, htrace, h'.symm, ?_, ?_,
                  hhead, hlast, hchain⟩
                · rw [← h']
                  rfl
                · rw [← h']
                  rfl
          case h_2 hg =>
            split at hok
            case h_1 => cases hok
            case h_2 v_goal c hselect =>
              split at hok
              case h_1 => cases hok
              case h_2 l htrace =>
                injection hok with h'
                obtain ⟨hhead, hlast, hchain⟩ :=
                  trace_path_indices_spec _ _ _ _ _ htrace
                refine ⟨startPos, v0, rest, _, v_goal, l, hsp, hcand, rfl,
                  Or.inr ⟨hg, c, hselect⟩, htrace, h'.symm, ?_, ?_,
                  hhead, hlast, hchain⟩
                · rw [← h']
                  rfl
                · rw [← h']
                  rfl

/-- C6 witness: on the two-point map with the reachable Dijkstra oracle
the directed request succeeds with poses start, vertex 0, vertex 1, and
the traced vertex sequence [0, 1] has the stated structure. -/
theorem plan_path_structure_witness :
    ∃ startPos v0 rest v_start v_goal l,
      resolve_start_pose reqDirected testState = some startPos ∧
      traversable_candidates testState.cloud startPos
        (start_tol reqDirected.tolerance testCfg.neighborhood_radius)
        = v0 :: rest ∧
      v_start = (if testCfg.random_start
        then (v0 :: rest).getD (0 % (v0 :: rest).length) v0
        else v0) ∧
      ((∃ g c, reqDirected.goal = some g ∧
          select_goal_directed testState.cloud (dijGood v_start).path_cost g
            = some (v_goal, c)) ∨
       (reqDirected.goal = none ∧
        ∃ c, select_goal_explore testCfg testState.cloud
          (dijGood v_start).path_cost = some (v_goal, c))) ∧
      trace_path_indices v_start v_goal (dijGood v_start).predecessor
        testState.cloud.length = some l ∧
      [Pose.mk ((0 : ℚ), (0 : ℚ), (0 : ℚ)),
       Pose.mk ((0 : ℚ), (0 : ℚ), (0 : ℚ)),
       Pose.mk ((1 : ℚ), (0 : ℚ), (0 : ℚ))]
        = build_path startPos testState.cloud l ∧
      List.head? [Pose.mk ((0 : ℚ), (0 : ℚ), (0 : ℚ)),
        Pose.mk ((0 : ℚ), (0 : ℚ), (0 : ℚ)),
        Pose.mk ((1 : ℚ), (0 : ℚ), (0 : ℚ))] = some (Pose.mk startPos) ∧
      List.drop 1 [Pose.mk ((0 : ℚ), (0 : ℚ), (0 : ℚ)),
        Pose.mk ((0 : ℚ), (0 : ℚ), (0 : ℚ)),
        Pose.mk ((1 : ℚ), (0 : ℚ), (0 : ℚ))]
        = l.map (fun v => Pose.mk (getPos testState.cloud v)) ∧
      l.head? = some v_start ∧
      l.getLast? = some v_goal ∧
      List.Chain' (fun u w : ℕ => (dijGood v_start).predecessor w = u) l :=
  plan_path_structure testCfg testState dijGood 0 reqDirected
    [Pose.mk ((0 : ℚ), (0 : ℚ), (0 : ℚ)),
     Pose.mk ((0 : ℚ), (0 : ℚ), (0 : ℚ)),
     Pose.mk ((1 : ℚ), (0 : ℚ), (0 : ℚ))]
    (by
      norm_num [plan, resolve_start_pose, traversable_candidates,
        nearby_indices, hasTraversable,
        start_tol, select_goal_directed, minScan, min_scan_step,
        directed_score, getPos, sqDist, sqNorm, dot, dijGood, testCfg,
        testState, reqDirected, pt0, pt1, dummyPoint, TRAVERSABLE,
        List.enum, List.enumFrom, List.filter, build_path,
        show List.range 2 = [0, 1] from rfl,
        show trace_path_indices 0 1 (fun _ => 0) 2 = some [0, 1] from rfl])

end Naex
